import Mathlib

/-!
Verification of the bastion message-passing core (`src/bastion/src/message.rs`
and `src/bastion/src/context.rs`).

The Rust code erases payload types behind `dyn Any`; we embed that with a
small closed universe of payload types (`TypeTag` with its `denote`
function) and a dependent pair (`AnyBox`) carrying the runtime type token
next to the value, which is exactly how `Any` downcasting behaves: a type
identity check followed by a safe reinterpretation.

Shared (`Arc`) broadcast payloads carry a strong-handle count so that
`Arc::try_unwrap`'s uniqueness check is represented; the pure embedding
threads the count on each handle (no claim below observes two aliased
handles at once, so this is adequate).

The one-shot reply channel lives in the external `futures` crate, not in
this repository; it is modelled from the spec as an explicit state machine
(`OneshotState`).  Likewise the `qutex` asynchronous lock is represented by
the outcome of an acquisition attempt (`LockStatus`).
-/

namespace Bastion

/-- Closed universe of payload types standing in for `dyn Any` payloads. -/
inductive TypeTag
  | nat
  | int
  | str
  | bool
  | unit
deriving DecidableEq, Repr

/-- The Lean type a `TypeTag` denotes. -/
@[reducible] def TypeTag.denote : TypeTag → Type
  | .nat => Nat
  | .int => Int
  | .str => String
  | .bool => Bool
  | .unit => Unit

instance TypeTag.decEqDenote : (t : TypeTag) → DecidableEq t.denote
  | .nat => inferInstanceAs (DecidableEq Nat)
  | .int => inferInstanceAs (DecidableEq Int)
  | .str => inferInstanceAs (DecidableEq String)
  | .bool => inferInstanceAs (DecidableEq Bool)
  | .unit => inferInstanceAs (DecidableEq Unit)

/-- A `Box<dyn Any + Send + Sync>`: a runtime type token next to a value of
the denoted type. -/
def AnyBox : Type := (t : TypeTag) × t.denote

instance : DecidableEq AnyBox :=
  inferInstanceAs (DecidableEq ((t : TypeTag) × t.denote))

/-- Build an `AnyBox` from a typed value (`Box::new`). -/
def AnyBox.mk (T : TypeTag) (v : T.denote) : AnyBox := ⟨T, v⟩

/-- Rust `msg.is::<M>()` followed by `msg.downcast().unwrap()`: succeeds exactly
when the stored type token equals the requested one. -/
def AnyBox.cast (T : TypeTag) (a : AnyBox) : Option T.denote :=
  if h : a.fst = T then some (h ▸ a.snd) else none

/-- An `Arc<dyn Any + Send + Sync>`: the boxed payload together with the
strong-handle count this handle observes (`Arc::try_unwrap` succeeds only
when it is 1). -/
structure ArcBox where
  box : AnyBox
  strong : Nat
deriving DecidableEq

/-- The sending half of the one-shot reply channel (wraps
`oneshot::Sender<Msg>`); the channel itself is identified by `ch` and its
state is threaded explicitly. -/
structure Sender where
  ch : Nat
deriving DecidableEq

/-- The receiving half (`Answer(Receiver<Msg>)`). -/
structure Answer where
  ch : Nat
deriving DecidableEq

/-- Rust `enum MsgInner` from `message.rs`. -/
inductive MsgInner
  | Broadcast (msg : ArcBox)
  | Tell (msg : AnyBox)
  | Ask (msg : AnyBox) (sender : Option Sender)
deriving DecidableEq

/-- Rust `pub struct Msg(MsgInner)`. -/
structure Msg where
  inner : MsgInner
deriving DecidableEq

/-- Modelled from the spec: the one-shot rendezvous channel created by
`oneshot::channel()` lives in the external `futures` crate, not in this
repository.  Per the spec it is a single-use, single-value pair: exactly one
value or one failure is ever observed by the receiver half; dropping the
sender unanswered signals failure; dropping the receiver makes a later send
fail, returning the value; observation after resolution is idempotent. -/
inductive OneshotState
  | pending
  | sent (m : Msg)
  | senderDropped
  | receiverDropped
  | resolvedOk (m : Msg)
  | resolvedErr
deriving DecidableEq

/-- Modelled from the spec: `oneshot::Sender::send`; delivery succeeds while
the receiver is still alive, otherwise the message comes back as the error. -/
def oneshotSend (st : OneshotState) (m : Msg) : Except Msg Unit × OneshotState :=
  match st with
  | .pending => (.ok (), .sent m)
  | .receiverDropped => (.error m, .receiverDropped)
  | s => (.error m, s)

/-- Modelled from the spec: polling `oneshot::Receiver` — suspends while
pending, resolves exactly once to the sent value or to failure if the
sender was dropped, and repolling after resolution observes the same
result. `none` is `Poll::Pending`. -/
def oneshotPoll (st : OneshotState) : Option (Except Unit Msg) × OneshotState :=
  match st with
  | .pending => (none, .pending)
  | .sent m => (some (.ok m), .resolvedOk m)
  | .senderDropped => (some (.error ()), .resolvedErr)
  | .receiverDropped => (none, .receiverDropped)
  | .resolvedOk m => (some (.ok m), .resolvedOk m)
  | .resolvedErr => (some (.error ()), .resolvedErr)

/-- Modelled from the spec: dropping the sender half without sending. -/
def oneshotDropSender (st : OneshotState) : OneshotState :=
  match st with
  | .pending => .senderDropped
  | s => s

/-- Rust `Msg::broadcast`: wrap the payload in a fresh `Arc` (strong count 1). -/
def Msg.broadcast (T : TypeTag) (v : T.denote) : Msg :=
  ⟨.Broadcast ⟨AnyBox.mk T v, 1⟩⟩

/-- Rust `Msg::tell`: wrap the payload in exclusive ownership. -/
def Msg.tell (T : TypeTag) (v : T.denote) : Msg :=
  ⟨.Tell (AnyBox.mk T v)⟩

/-- Rust `Msg::ask`: wrap the payload and pair it with a fresh one-shot channel
(identified by `ch`); returns the envelope with the embedded sender, the
`Answer` half, and the channel's initial state. -/
def Msg.ask (T : TypeTag) (v : T.denote) (ch : Nat) : Msg × Answer × OneshotState :=
  (⟨.Ask (AnyBox.mk T v) (some ⟨ch⟩)⟩, ⟨ch⟩, .pending)

/-- Rust `Msg::is_broadcast`. -/
def Msg.is_broadcast (m : Msg) : Bool :=
  match m.inner with
  | .Broadcast _ => true
  | _ => false

/-- Rust `Msg::is_tell`. -/
def Msg.is_tell (m : Msg) : Bool :=
  match m.inner with
  | .Tell _ => true
  | _ => false

/-- Rust `Msg::is_ask`. -/
def Msg.is_ask (m : Msg) : Bool :=
  match m.inner with
  | .Ask _ _ => true
  | _ => false

/-- Rust `Msg::take_sender` (`&mut self`): `sender.take()` on an ask envelope;
returns the detached sender (if any) together with the updated envelope. -/
def Msg.take_sender (m : Msg) : Option Sender × Msg :=
  match m.inner with
  | .Ask box s => (s, ⟨.Ask box none⟩)
  | _ => (none, m)

/-- Rust `Msg::downcast::<M>`: for `Tell`/`Ask`, a type-token check; on match
the payload is moved out, on mismatch the original envelope is rebuilt and
returned as the error; `Broadcast` always comes back as the error. -/
def Msg.downcast (T : TypeTag) (m : Msg) : Except Msg T.denote :=
  match m.inner with
  | .Tell box =>
    match box.cast T with
    | some v => .ok v
    | none => .error ⟨.Tell box⟩
  | .Ask box s =>
    match box.cast T with
    | some v => .ok v
    | none => .error ⟨.Ask box s⟩
  | .Broadcast _ => .error m

/-- Rust `Msg::downcast_ref::<M>` (`&self`): broadcast-only; on a type match
returns a cloned shared handle's view of the payload, otherwise `none`. -/
def Msg.downcast_ref (T : TypeTag) (m : Msg) : Option T.denote :=
  match m.inner with
  | .Broadcast arc => arc.box.cast T
  | _ => none

/-- Rust `Msg::try_clone` (`&self`): broadcast-only; clones the `Arc` handle
(which raises the strong count), otherwise `none`. -/
def Msg.try_clone (m : Msg) : Option Msg :=
  match m.inner with
  | .Broadcast arc => some ⟨.Broadcast ⟨arc.box, arc.strong + 1⟩⟩
  | _ => none

/-- Rust `Msg::try_unwrap::<M>`: on a broadcast envelope, `Arc` downcast (type
check) then `Arc::try_unwrap` (unique-handle check); otherwise falls back
to the consuming `downcast` path. -/
def Msg.try_unwrap (T : TypeTag) (m : Msg) : Except Msg T.denote :=
  match m.inner with
  | .Broadcast arc =>
    if h : arc.box.fst = T then
      if arc.strong = 1 then .ok (h ▸ arc.box.snd)
      else .error ⟨.Broadcast arc⟩
    else .error ⟨.Broadcast arc⟩
  | _ => m.downcast T

/-- Rust `Sender::send<M>`: wraps the reply in `Msg::tell`, pushes it through
the one-shot channel, and on failure recovers the original value with
`msg.try_unwrap().unwrap()` (the error side carries the recovered value;
`some` witnesses that the unwrap succeeds). -/
def Sender.send (_s : Sender) (T : TypeTag) (v : T.denote) (st : OneshotState) :
    Except (Option T.denote) Unit × OneshotState :=
  let m := Msg.tell T v
  match oneshotSend st m with
  | (.ok _, st2) => (.ok (), st2)
  | (.error back, st2) => (.error (back.try_unwrap T).toOption, st2)

/-- Rust `impl Future for Answer`: polls the wrapped receiver, mapping a channel
error (`Canceled`) to `()`. -/
def Answer.poll (_a : Answer) (st : OneshotState) : Option (Except Unit Msg) × OneshotState :=
  oneshotPoll st

/-- Rust `BastionId` from `context.rs`: wraps a v4 UUID (128-bit value, modelled
as a natural number). -/
structure BastionId where
  uuid : Nat
deriving DecidableEq

/-- Rust `NIL_ID`: the reserved nil-UUID identity of the system supervisor. -/
def NIL_ID : BastionId := ⟨0⟩

/-- Modelled from the spec: the supervision restart strategy
(`supervisor.rs` is not under `src/`); a small closed enum whose values
clone to themselves. -/
inductive SupervisionStrategy
  | one_for_one
  | one_for_all
  | rest_for_one
deriving DecidableEq

/-- Modelled from the spec: an owned supervisor entity awaiting deployment
(`supervisor.rs` is not under `src/`); its internals are irrelevant to the
claims, only its identity is kept. -/
structure Supervisor where
  id : BastionId
deriving DecidableEq

/-- Modelled from the spec: an owned children group awaiting deployment
(`children.rs` is not under `src/`). -/
structure Children where
  id : BastionId
deriving DecidableEq

/-- Rust `enum Deployment` from `message.rs`. -/
inductive Deployment
  | Supervisor (s : Supervisor)
  | Children (c : Children)
deriving DecidableEq

/-- Rust `enum BastionMessage` from `message.rs`: the control envelope. -/
inductive BastionMessage
  | Start
  | Stop
  | Kill
  | Deploy (d : Deployment)
  | Prune (id : BastionId)
  | SuperviseWith (strategy : SupervisionStrategy)
  | Message (msg : Msg)
  | Stopped (id : BastionId)
  | Faulted (id : BastionId)
deriving DecidableEq

/-- Rust `BastionMessage::try_clone` (`&self`).  The Rust function returns
`Option<Self>` but its `Deploy` arm is `unimplemented!()` (a panic, marked
`FIXME`); the embedding makes the panic explicit as the `Except` error, so
`.ok none` is <<returned None>>, `.ok (some c)` is a returned clone, and
`.error ()` is a panic.  The `Message` arm propagates the inner
`Msg::try_clone` through `?`. -/
def BastionMessage.try_clone : BastionMessage → Except Unit (Option BastionMessage)
  | .Start => .ok (some .Start)
  | .Stop => .ok (some .Stop)
  | .Kill => .ok (some .Kill)
  | .Deploy _ => .error ()
  | .Prune id => .ok (some (.Prune id))
  | .SuperviseWith strategy => .ok (some (.SuperviseWith strategy))
  | .Message msg => .ok (msg.try_clone.map .Message)
  | .Stopped id => .ok (some (.Stopped id))
  | .Faulted id => .ok (some (.Faulted id))

/-- Rust `ContextState` from `context.rs`: the FIFO mailbox buffer
(`VecDeque<Msg>`, front at the list head). -/
structure ContextState where
  msgs : List Msg
deriving DecidableEq

/-- Rust `ContextState::new`. -/
def ContextState.new : ContextState := ⟨[]⟩

/-- Rust `ContextState::push_msg`: `push_back` appends at the back. -/
def ContextState.push_msg (s : ContextState) (m : Msg) : ContextState :=
  ⟨s.msgs ++ [m]⟩

/-- The outcome of one attempt to acquire the mailbox's `Qutex` lock: the
lock machinery is the external `qutex` crate, so only the outcome of
`lock_async().await` (success or a poisoned/detached failure) is modelled. -/
inductive LockStatus
  | ok
  | poisoned
deriving DecidableEq

namespace BastionContext

/-- Rust `BastionContext::try_recv`: `lock_async().await.ok()?` turns a failed
lock acquisition into `None`; otherwise `pop_front` the oldest envelope.
Returns the result together with the mailbox state left behind. -/
def try_recv (lock : LockStatus) (s : ContextState) : Option Msg × ContextState :=
  match lock with
  | .poisoned => (none, s)
  | .ok =>
    match s.msgs with
    | [] => (none, s)
    | m :: rest => (some m, ⟨rest⟩)

/-- One iteration of the `BastionContext::recv` loop. -/
inductive RecvStep
  | panicked
  | received (m : Msg) (s : ContextState)
  | pended (s : ContextState)
deriving DecidableEq

/-- One iteration of `BastionContext::recv`: `lock_async().await.unwrap()`
panics on a failed lock; with the lock held, a non-empty mailbox returns
`Ok(front)`, and an empty one unlocks and suspends (`pending!`) before the
loop retries. -/
def recv_step (lock : LockStatus) (s : ContextState) : RecvStep :=
  match lock with
  | .poisoned => .panicked
  | .ok =>
    match s.msgs with
    | [] => .pended s
    | m :: rest => .received m ⟨rest⟩

end BastionContext

/-- Casting an `AnyBox` back at the type it was built with succeeds. -/
theorem AnyBox.cast_mk_self (T : TypeTag) (v : T.denote) :
    AnyBox.cast T (AnyBox.mk T v) = some v := by
  unfold AnyBox.cast
  exact dif_pos rfl

/-- Casting an `AnyBox` at a different type fails. -/
theorem AnyBox.cast_mk_of_ne (T Tq : TypeTag) (v : T.denote) (h : Tq ≠ T) :
    AnyBox.cast Tq (AnyBox.mk T v) = none := by
  unfold AnyBox.cast
  exact dif_neg (fun he => h he.symm)

/-- Downcasting a tell envelope at its construction type recovers the value. -/
theorem Msg.downcast_tell_self (T : TypeTag) (v : T.denote) :
    Msg.downcast T (Msg.tell T v) = .ok v := by
  simp [Msg.downcast, Msg.tell, AnyBox.cast_mk_self]

/-- Downcasting a tell envelope at a different type returns the original
envelope as the error. -/
theorem Msg.downcast_tell_of_ne (T Tq : TypeTag) (v : T.denote) (h : Tq ≠ T) :
    Msg.downcast Tq (Msg.tell T v) = .error (Msg.tell T v) := by
  simp [Msg.downcast, Msg.tell, AnyBox.cast_mk_of_ne T Tq v h]

/-- C1: evaluation of `BastionMessage::try_clone` at the claim's inputs.
The claim says the `Deploy` variant yields a <<not clonable>> `None`
rather than panicking; the code's `Deploy` arm is `unimplemented!()`
(a `FIXME`-marked panic), here the explicit `.error ()`.  The `Stop` and
`Stopped{id}` parts of the claim do hold: they clone to equal values. -/
theorem C1_control_clone_deploy_panics (d : Deployment) (id : BastionId) :
    BastionMessage.try_clone (.Deploy d) = .error () ∧
    BastionMessage.try_clone .Stop = .ok (some .Stop) ∧
    BastionMessage.try_clone (.Stopped id) = .ok (some (.Stopped id)) :=
  ⟨rfl, rfl, rfl⟩

/-- C2: evaluation of one `BastionContext::recv` loop iteration.  The claim
says a poisoned/detached mailbox lock surfaces as an `Err` result from
`recv`; the code instead calls `.unwrap()` on the failed lock acquisition
and panics (first conjunct) — on a healthy lock it pops the front message
or suspends, and no code path produces an `Err` value. -/
theorem C2_recv_poisoned_lock_panics (s : ContextState) (m : Msg) (rest : List Msg) :
    BastionContext.recv_step .poisoned s = .panicked ∧
    BastionContext.recv_step .ok ⟨m :: rest⟩ = .received m ⟨rest⟩ ∧
    BastionContext.recv_step .ok ⟨[]⟩ = .pended ⟨[]⟩ :=
  ⟨rfl, rfl, rfl⟩

/-- C3: for every payload value `v` and requested type, `downcast` on
`tell v` returns `v` when the requested type is the constructed one; on a
mismatch it returns the original envelope unconsumed as the error — the
mode is still tell and the payload is still recoverable by a later
downcast at the right type. -/
theorem C3_tell_downcast_round_trip (T Tq : TypeTag) (v : T.denote)
    (hne : Tq ≠ T) :
    Msg.downcast T (Msg.tell T v) = .ok v ∧
    Msg.downcast Tq (Msg.tell T v) = .error (Msg.tell T v) ∧
    ∀ e, Msg.downcast Tq (Msg.tell T v) = .error e →
      e.is_tell = true ∧ Msg.downcast T e = .ok v := by
  refine ⟨Msg.downcast_tell_self T v, Msg.downcast_tell_of_ne T Tq v hne, ?_⟩
  intro e he
  rw [Msg.downcast_tell_of_ne T Tq v hne] at he
  injection he with h
  subst h
  exact ⟨rfl, Msg.downcast_tell_self T v⟩

/-- Witness for C3 at `T = nat`, `Tq = str`, `v = 3`. -/
theorem C3_witness :
    Msg.downcast .nat (Msg.tell .nat 3) = .ok 3 ∧
    Msg.downcast .str (Msg.tell .nat 3) = .error (Msg.tell .nat 3) := by
  have h := C3_tell_downcast_round_trip .nat .str 3 (by decide)
  exact ⟨h.1, h.2.1⟩

/-- C4: the ask round trip.  `ask v` yields an envelope whose sender can be
taken and whose payload downcasts to `v`; the paired channel starts
pending; sending `w` on the extracted sender succeeds and resolves the
answer to an envelope that downcasts to `w`; polling the resolved answer
again observes the same result, not a second distinct value. -/
theorem C4_ask_round_trip (T W : TypeTag) (v : T.denote) (w : W.denote) (ch : Nat) :
    ((Msg.ask T v ch).1.take_sender).1 = some ⟨ch⟩ ∧
    Msg.downcast T ((Msg.ask T v ch).1.take_sender).2 = .ok v ∧
    (Msg.ask T v ch).2.2 = .pending ∧
    Sender.send ⟨ch⟩ W w (Msg.ask T v ch).2.2 = (.ok (), .sent (Msg.tell W w)) ∧
    Answer.poll (Msg.ask T v ch).2.1 (.sent (Msg.tell W w)) =
      (some (.ok (Msg.tell W w)), .resolvedOk (Msg.tell W w)) ∧
    Msg.downcast W (Msg.tell W w) = .ok w ∧
    Answer.poll (Msg.ask T v ch).2.1 (.resolvedOk (Msg.tell W w)) =
      (some (.ok (Msg.tell W w)), .resolvedOk (Msg.tell W w)) := by
  refine ⟨rfl, ?_, rfl, rfl, rfl, Msg.downcast_tell_self W w, rfl⟩
  simp [Msg.ask, Msg.take_sender, Msg.downcast, AnyBox.cast_mk_self]

/-- C5: reply-channel breakage is reported as a value on both sides.  If
the receiver was dropped, `Sender::send(w)` fails and hands the original
value back to the caller (the `some w` also witnesses that the recovery
`try_unwrap().unwrap()` succeeds); if the sender is dropped unanswered,
polling the answer resolves to a failure instead of staying pending. -/
theorem C5_reply_channel_breakage (T : TypeTag) (w : T.denote) (ch : Nat) :
    Sender.send ⟨ch⟩ T w .receiverDropped = (.error (some w), .receiverDropped) ∧
    oneshotDropSender .pending = .senderDropped ∧
    Answer.poll ⟨ch⟩ .senderDropped = (some (.error ()), .resolvedErr) := by
  refine ⟨?_, rfl, rfl⟩
  simp [Sender.send, oneshotSend, Msg.try_unwrap, Msg.downcast, Msg.tell,
    AnyBox.cast_mk_self, Except.toOption]

/-- C6 counterexample: the claim quantifies over every mailbox state, but
on a mailbox that already buffers an envelope `e0`, pushing `e1, e2, e3`
and popping does not yield `e1` first — the pop returns the older `e0`. -/
theorem C6_counterexample :
    (BastionContext.try_recv .ok
        ((((ContextState.mk [Msg.tell .nat 0]).push_msg (Msg.tell .nat 1)).push_msg
            (Msg.tell .nat 2)).push_msg (Msg.tell .nat 3))).1 ≠
      some (Msg.tell .nat 1) := by
  decide

/-- C6 (amended): starting from an empty mailbox, pushing `e1, e2, e3` in
that order and popping three times yields `e1, e2, e3` in that order; in
every state a pop (via `try_recv` or the `recv` loop body) takes the
oldest still-buffered envelope; and for every state and every envelope, a
push places the new envelope at the back with all existing entries left
in front of it in their original order (so a push never reorders the
buffer). -/
theorem C6_fifo_from_empty (e1 e2 e3 mm : Msg) (s : ContextState)
    (rest : List Msg) (h : s.msgs = mm :: rest) :
    BastionContext.try_recv .ok
        (((ContextState.new.push_msg e1).push_msg e2).push_msg e3) =
      (some e1, ⟨[e2, e3]⟩) ∧
    BastionContext.try_recv .ok ⟨[e2, e3]⟩ = (some e2, ⟨[e3]⟩) ∧
    BastionContext.try_recv .ok ⟨[e3]⟩ = (some e3, ContextState.new) ∧
    BastionContext.try_recv .ok s = (some mm, ⟨rest⟩) ∧
    BastionContext.recv_step .ok s = .received mm ⟨rest⟩ ∧
    (∀ (t : ContextState) (m : Msg), (t.push_msg m).msgs = t.msgs ++ [m]) ∧
    (∀ (t : ContextState) (m : Msg), List.IsPrefix t.msgs (t.push_msg m).msgs) := by
  obtain ⟨msgs⟩ := s
  cases h
  exact ⟨rfl, rfl, rfl, rfl, rfl, fun t m => rfl, fun t m => ⟨[m], rfl⟩⟩

/-- Witness for C6 (amended) at concrete envelopes: the push-pop-push-pop
round trip from empty, a pop of the oldest entry of a nonempty buffer, and
a push onto a two-element buffer landing at the back. -/
theorem C6_fifo_witness :
    BastionContext.try_recv .ok
        (((ContextState.new.push_msg (Msg.tell .nat 1)).push_msg
            (Msg.tell .nat 2)).push_msg (Msg.tell .nat 3)) =
      (some (Msg.tell .nat 1), ⟨[Msg.tell .nat 2, Msg.tell .nat 3]⟩) ∧
    BastionContext.try_recv .ok ⟨[Msg.tell .nat 9]⟩ =
      (some (Msg.tell .nat 9), ⟨[]⟩) ∧
    ((ContextState.mk [Msg.tell .nat 4, Msg.tell .nat 5]).push_msg
        (Msg.tell .nat 6)).msgs =
      [Msg.tell .nat 4, Msg.tell .nat 5, Msg.tell .nat 6] := by
  have h := C6_fifo_from_empty (Msg.tell .nat 1) (Msg.tell .nat 2)
    (Msg.tell .nat 3) (Msg.tell .nat 9) ⟨[Msg.tell .nat 9]⟩ [] rfl
  exact ⟨h.1, h.2.2.2.1,
    h.2.2.2.2.2.1 ⟨[Msg.tell .nat 4, Msg.tell .nat 5]⟩ (Msg.tell .nat 6)⟩

/-- C7: the broadcast round trip.  `downcast_ref` on `broadcast v` returns
a shared view equal to `v` at the matching type (and, being `&self`, the
envelope is untouched, so a repeated call observes the same view); it
returns `none` on a type mismatch and on tell/ask envelopes; `try_clone`
succeeds on a broadcast envelope and the clone's `downcast_ref` also
equals `v`. -/
theorem C7_broadcast_round_trip (T Tq : TypeTag) (v : T.denote) (hne : Tq ≠ T) :
    Msg.downcast_ref T (Msg.broadcast T v) = some v ∧
    Msg.downcast_ref Tq (Msg.broadcast T v) = none ∧
    Msg.downcast_ref T (Msg.tell T v) = none ∧
    Msg.downcast_ref T ⟨.Ask (AnyBox.mk T v) none⟩ = none ∧
    ∃ c, Msg.try_clone (Msg.broadcast T v) = some c ∧
      c.is_broadcast = true ∧ Msg.downcast_ref T c = some v := by
  refine ⟨?_, ?_, rfl, rfl, ⟨⟨.Broadcast ⟨AnyBox.mk T v, 2⟩⟩, rfl, rfl, ?_⟩⟩
  · simp [Msg.downcast_ref, Msg.broadcast, AnyBox.cast_mk_self]
  · simp [Msg.downcast_ref, Msg.broadcast, AnyBox.cast_mk_of_ne T Tq v hne]
  · simp [Msg.downcast_ref, AnyBox.cast_mk_self]

/-- Witness for C7 at `T = nat`, `Tq = str`, `v = 5`. -/
theorem C7_witness :
    Msg.downcast_ref .nat (Msg.broadcast .nat 5) = some 5 ∧
    Msg.downcast_ref .str (Msg.broadcast .nat 5) = none := by
  have h := C7_broadcast_round_trip .nat .str 5 (by decide)
  exact ⟨h.1, h.2.1⟩

/-- C8: `take_sender` detaches and returns the reply sender exactly when
the envelope is in ask mode and the sender has not been taken; it returns
`none` on a second call and on tell/broadcast envelopes; and afterwards
the envelope remains inspectable — its mode flags, its consuming-downcast
payload (up to the error envelope's dropped sender) and its shared view
are unchanged. -/
theorem C8_take_sender_contract (m : Msg) :
    (∀ box sr, m.inner = .Ask box (some sr) →
      m.take_sender = (some sr, ⟨.Ask box none⟩)) ∧
    (∀ box, m.inner = .Ask box none → m.take_sender = (none, m)) ∧
    (m.is_ask = false → m.take_sender = (none, m)) ∧
    ((m.take_sender).2.take_sender).1 = none ∧
    (m.take_sender).2.is_ask = m.is_ask ∧
    (m.take_sender).2.is_tell = m.is_tell ∧
    (m.take_sender).2.is_broadcast = m.is_broadcast ∧
    (∀ T, ((m.take_sender).2.downcast T).toOption = (m.downcast T).toOption) ∧
    (∀ T, (m.take_sender).2.downcast_ref T = m.downcast_ref T) := by
  obtain ⟨inner⟩ := m
  cases inner with
  | Broadcast arc =>
    exact ⟨fun _ _ h => MsgInner.noConfusion h, fun _ h => MsgInner.noConfusion h,
      fun _ => rfl, rfl, rfl, rfl, rfl, fun T => rfl, fun T => rfl⟩
  | Tell box =>
    exact ⟨fun _ _ h => MsgInner.noConfusion h, fun _ h => MsgInner.noConfusion h,
      fun _ => rfl, rfl, rfl, rfl, rfl, fun T => rfl, fun T => rfl⟩
  | Ask box sOpt =>
    cases sOpt with
    | none =>
      refine ⟨?_, fun _ h => ?_, fun h => Bool.noConfusion h, rfl, rfl, rfl, rfl,
        fun T => rfl, fun T => rfl⟩
      · intro b sr h
        exact MsgInner.noConfusion h (fun _ hs => Option.noConfusion hs)
      · cases h
        rfl
    | some sr =>
      refine ⟨?_, ?_, fun h => Bool.noConfusion h, rfl, rfl, rfl, rfl, ?_, fun T => rfl⟩
      · intro b s2 h
        cases h
        rfl
      · intro b h
        exact MsgInner.noConfusion h (fun _ hs => Option.noConfusion hs)
      · intro T
        rcases hc : AnyBox.cast T box with _ | w <;>
          simp [Msg.take_sender, Msg.downcast, hc, Except.toOption]

/-- Witness for C8 at a concrete ask envelope carrying `7 : Nat`. -/
theorem C8_witness :
    (Msg.mk (.Ask (AnyBox.mk .nat 7) (some ⟨0⟩))).take_sender =
      (some ⟨0⟩, ⟨.Ask (AnyBox.mk .nat 7) none⟩) ∧
    (((Msg.mk (.Ask (AnyBox.mk .nat 7) (some ⟨0⟩))).take_sender).2.take_sender).1 =
      none := by
  have h := C8_take_sender_contract ⟨.Ask (AnyBox.mk .nat 7) (some ⟨0⟩)⟩
  exact ⟨h.1 (AnyBox.mk .nat 7) ⟨0⟩ rfl, h.2.2.2.1⟩

/-- C9: a broadcast payload can never be extracted through `downcast` —
the envelope always comes back as the error, even at the exact payload
type; the payload is still viewable through `downcast_ref` and, when the
handle is the last one, reclaimable through `try_unwrap`. -/
theorem C9_broadcast_downcast_always_rejected (T Tq : TypeTag) (v : T.denote)
    (arc : ArcBox) :
    Msg.downcast Tq ⟨.Broadcast arc⟩ = .error ⟨.Broadcast arc⟩ ∧
    Msg.downcast T (Msg.broadcast T v) = .error (Msg.broadcast T v) ∧
    Msg.downcast_ref T (Msg.broadcast T v) = some v ∧
    Msg.try_unwrap T (Msg.broadcast T v) = .ok v := by
  refine ⟨rfl, rfl, ?_, ?_⟩
  · simp [Msg.downcast_ref, Msg.broadcast, AnyBox.cast_mk_self]
  · simp only [Msg.try_unwrap, Msg.broadcast]
    exact dif_pos rfl

/-- C10: a failed (poisoned/detached) lock acquisition makes
`BastionContext::try_recv` return `none` — indistinguishable from an empty
mailbox and never an error value — leaving the buffered envelopes alone. -/
theorem C10_try_recv_poisoned_is_none (s : ContextState) :
    (BastionContext.try_recv .poisoned s).1 = none ∧
    (BastionContext.try_recv .poisoned s).2 = s ∧
    (BastionContext.try_recv .poisoned s).1 =
      (BastionContext.try_recv .ok ContextState.new).1 :=
  ⟨rfl, rfl, rfl⟩

end Bastion



